import Mathlib

/-!
Verification of `custom_components/srf_weather/weather.py` (hass-srf-weather).

Shallow embedding conventions:
* Instants are naive local-time seconds since the epoch, modelled as `Int`
  (`time.time()` and parsed `datetime`s; sub-second fractions are irrelevant
  to every property proved here).
* Python `dict` responses with possibly-missing keys become structures of
  `Option` fields; a raw forecast field that is missing *or* non-numeric is
  `none` (parsing it raises, which is all the merge loop observes).
* Python floats carried opaquely (temperatures, precipitation, ...) are `ℚ`;
  no float rounding behaviour is relied upon by any claim.
* Exceptions become `Except`; a function that mutates a store and can raise
  returns `Except (Error × Store) Store`, the error case carrying the store
  as already mutated at the moment of the raise, matching Python semantics.
* Python `//` (floor division) is `Int.fdiv`, `%` on ints is `Int.emod`.
-/

namespace SrfWeather

/-! ### Token lifecycle (weather.py lines 37-94) -/

/-- Errors surfaced by the token-cache functions. `malformedCredentialResponse`
is the `ValueError("client credentials response missing keys", ...)` of
`_check_client_credentials_response`; `keyError` is the `KeyError` raised by
`data[ATTR_API_KEY]` at the end of `get_api_key`. -/
inductive ApiKeyError where
  | malformedCredentialResponse
  | keyError
  deriving DecidableEq, Repr

/-- JSON body of the OAuth token exchange; each field is `none` when the key
is absent from the response. -/
structure TokenResponse where
  issued_at : Option Int
  expires_in : Option Int
  access_token : Option String
  deriving DecidableEq, Repr

/-- The mutable credential store `data` (the `_api_data` dict); only the two
keys the token cache writes are modelled (`ATTR_EXPIRES_AT`, `ATTR_API_KEY`);
each is `none` while the key is absent. -/
structure CredStore where
  expires_at : Option Int
  api_key : Option String
  deriving DecidableEq, Repr

/-- `_check_client_credentials_response` (lines 37-48): synthesize
`issued_at = int(time.time())` when missing, then fail if any of the three
expected keys is still missing.  Returns the (possibly augmented) response,
since the Python code mutates the response dict in place. -/
def _check_client_credentials_response (now : Int) (d0 : TokenResponse) :
    Except ApiKeyError TokenResponse :=
  let d := if d0.issued_at.isNone then { d0 with issued_at := some now } else d0
  if d.issued_at.isNone || d.expires_in.isNone || d.access_token.isNone then
    Except.error ApiKeyError.malformedCredentialResponse
  else
    Except.ok d

/-- `_renew_api_key` (lines 64-79): run the exchange (the HTTP transport is
abstracted away: `resp` is the JSON the server answered), validate it, then
store `expires_at = int(expires_in) + int(issued_at) // 1000` and
`api_key = access_token`.  On error the input store is returned unchanged in
the error payload (the Python exception propagates before any assignment). -/
def _renew_api_key (now : Int) (resp : TokenResponse) (data : CredStore) :
    Except (ApiKeyError × CredStore) CredStore :=
  match _check_client_credentials_response now resp with
  | Except.error e => Except.error (e, data)
  | Except.ok td =>
    match td.expires_in, td.issued_at, td.access_token with
    | some ein, some iat, some tok =>
        Except.ok { data with
          expires_at := some (ein + Int.fdiv iat 1000),
          api_key := some tok }
    | _, _, _ => Except.error (ApiKeyError.malformedCredentialResponse, data)

/-- The `renew` flag computed by `get_api_key` (lines 83-88): renew when
`ATTR_EXPIRES_AT` is absent (`KeyError` branch) or `time.time() >= expires_at`. -/
def renewDecision (now : Int) (data : CredStore) : Bool :=
  match data.expires_at with
  | none => true
  | some e => decide (e ≤ now)

/-- `get_api_key` (lines 82-94): renew if `renewDecision`, then return
`data[ATTR_API_KEY]` — which raises `KeyError` when no key is stored. -/
def get_api_key (now : Int) (resp : TokenResponse) (data : CredStore) :
    Except (ApiKeyError × CredStore) (String × CredStore) :=
  match (if renewDecision now data then _renew_api_key now resp data
         else Except.ok data) with
  | Except.error ed => Except.error ed
  | Except.ok d =>
    match d.api_key with
    | some k => Except.ok (k, d)
    | none => Except.error (ApiKeyError.keyError, d)

/-! ### Condition mapper (weather.py lines 390-459) -/

/-- `STATE_UNAVAILABLE` from `homeassistant.const`. -/
def STATE_UNAVAILABLE : String := "unavailable"

/-- `SYMBOL_STATE_MAP` (lines 390-451), transcribed as an association list
(the Python dict, keyed by signed symbol id). -/
def SYMBOL_STATE_MAP : List (Int × String) :=
  [(1, "sunny"), (2, "fog"), (3, "partlycloudy"), (4, "rainy"),
   (5, "lightning-rainy"), (6, "snowy"), (7, "snowy-rainy"), (8, "snowy-rainy"),
   (9, "snowy-rainy"), (10, "sunny"), (11, "partlycloudy"), (12, "sunny"),
   (13, "sunny"), (14, "sunny"), (15, "sunny"), (16, "sunny"),
   (17, "fog"), (18, "cloudy"), (19, "cloudy"), (20, "rainy"),
   (21, "snowy"), (22, "snowy-rainy"), (23, "pouring"), (24, "snowy"),
   (25, "rainy"), (26, "lightning"), (27, "snowy"), (28, "cloudy"),
   (29, "snowy-rainy"), (30, "snowy-rainy"),
   (-1, "clear-night"), (-2, "fog"), (-3, "cloudy"), (-4, "rainy"),
   (-5, "lightning-rainy"), (-6, "snowy"), (-7, "snowy"), (-8, "snowy-rainy"),
   (-9, "lightning-rainy"), (-10, "partlycloudy"), (-11, "rainy"),
   (-12, "lightning"), (-13, "snowy"), (-14, "snowy"), (-15, "snowy-rainy"),
   (-16, "partlycloudy"), (-17, "fog"), (-18, "cloudy"), (-19, "cloudy"),
   (-20, "rainy"), (-21, "snowy"), (-22, "snowy-rainy"), (-23, "pouring"),
   (-24, "snowy"), (-25, "rainy"), (-26, "lightning"), (-27, "rainy"),
   (-28, "lightning-rainy"), (-29, "snowy-rainy"), (-30, "snowy-rainy")]

/-- `get_condition_from_symbol` (lines 454-459): `SYMBOL_STATE_MAP.get(id)`,
defaulting to `STATE_UNAVAILABLE` (with a logged warning) when absent. -/
def get_condition_from_symbol (symbol_id : Int) : String :=
  (SYMBOL_STATE_MAP.lookup symbol_id).getD STATE_UNAVAILABLE

/-! ### Bearing converter (weather.py lines 358-384) -/

/-- `CARDINALS` (lines 358-375). -/
def CARDINALS : List String :=
  ["N", "NNE", "NE", "ENE", "E", "ESE", "SE", "SSE",
   "S", "SSW", "SW", "WSW", "W", "WNW", "NW", "NNW"]

def DEG_HALF_CIRCLE : ℚ := 180

def DEG_FULL_CIRCLE : ℚ := 2 * DEG_HALF_CIRCLE

def _CARDINAL_DEGREE : ℚ := DEG_FULL_CIRCLE / 16

/-- Python `%` on reals: the result takes the sign of the divisor,
`a % m = a - m * floor(a / m)`. -/
def pymod (a m : ℚ) : ℚ := a - m * (⌊a / m⌋ : ℤ)

/-- Python 3 `round` to an integer: round half to even. -/
def pyround (q : ℚ) : Int :=
  let f : Int := ⌊q⌋
  let r : ℚ := q - f
  if r < 1 / 2 then f
  else if 1 / 2 < r then f + 1
  else if f % 2 = 0 then f else f + 1

/-- `deg_to_cardinal` (lines 382-384):
`CARDINALS[round((deg % 360) / 22.5) % len(CARDINALS)]`.  Python float
arithmetic is idealised as exact rational arithmetic. -/
def deg_to_cardinal (deg : ℚ) : String :=
  CARDINALS.getD
    ((pyround (pymod deg DEG_FULL_CIRCLE / _CARDINAL_DEGREE)) % 16).toNat "N"

/-! ### Forecast parser (weather.py lines 303-355) -/

/-- One raw record of a forecast array.  Each numeric field is `none` when the
key is missing **or** its value fails `int(...)`/`float(...)`/ISO parsing
(both raise, and the caller only observes the raise).  `DD_DEG` is genuinely
optional: its absence is not an error (lines 321-323). -/
structure RawRecord where
  local_date_time : Option Int
  SYMBOL_CODE : Option Int
  RRR_MM : Option ℚ
  FF_KMH : Option ℚ
  PROBPCP_PERCENT : Option ℚ
  DD_DEG : Option Int
  TTT_C : Option ℚ
  TX_C : Option ℚ
  TN_C : Option ℚ
  deriving DecidableEq, Repr

/-- The dict built by `parse_forecast`(+`_hour`/`_day`): the normalized
forecast point. `templow` is present only for daily records. -/
structure ForecastPoint where
  datetime : Int
  condition : String
  symbol_id : Int
  precipitation : ℚ
  wind_speed : ℚ
  precipitation_probability : ℚ
  wind_bearing : Option Int
  temperature : ℚ
  templow : Option ℚ
  deriving DecidableEq, Repr

/-- `parse_forecast` (lines 303-325), without the granularity-specific
temperature (filled in by the two wrappers; `temperature` is a placeholder 0
here, always overwritten).  `none` = some required field raised. -/
def parse_forecast (r : RawRecord) : Option (Int × ForecastPoint) :=
  match r.local_date_time, r.SYMBOL_CODE, r.RRR_MM, r.FF_KMH, r.PROBPCP_PERCENT with
  | some date, some symbol_id, some precip_total, some wind_speed, some prob =>
      some (date,
        { datetime := date
          condition := get_condition_from_symbol symbol_id
          symbol_id := symbol_id
          precipitation := precip_total
          wind_speed := wind_speed
          precipitation_probability := prob
          wind_bearing := r.DD_DEG
          temperature := 0
          templow := none })
  | _, _, _, _, _ => none

/-- `parse_forecast_day` (lines 328-341). -/
def parse_forecast_day (r : RawRecord) : Option (Int × ForecastPoint) :=
  match parse_forecast r, r.TX_C, r.TN_C with
  | some (date, data), some temp_high, some temp_low =>
      some (date, { data with temperature := temp_high, templow := some temp_low })
  | _, _, _ => none

/-- `parse_forecast_hour` (lines 344-355). -/
def parse_forecast_hour (r : RawRecord) : Option (Int × ForecastPoint) :=
  match parse_forecast r, r.TTT_C with
  | some (date, data), some temperature =>
      some (date, { data with temperature := temperature })
  | _, _ => none

/-! ### Forecast merge engine (weather.py lines 214-272)

The three `for` loops of `SRFWeather.__update` over `forecast["60minutes"]`,
`forecast["hour"]` and `forecast["day"]`, written as recursions; `continue`
recurses on the tail, `break` returns what was accumulated. -/

/-- Loop over the hourly (`60minutes`) source (lines 223-239): skip a record
that fails to parse, skip `fdate < now`, stop at the first
`fdate > hourly_split`, else append. -/
def hourlyLoop (now hourly_split : Int) : List RawRecord → List ForecastPoint
  | [] => []
  | r :: rs =>
    match parse_forecast_hour r with
    | none => hourlyLoop now hourly_split rs
    | some (fdate, hour) =>
      if fdate < now then hourlyLoop now hourly_split rs
      else if hourly_split < fdate then []
      else hour :: hourlyLoop now hourly_split rs

/-- Loop over the tri-hourly (`hour`) source (lines 242-258): skip parse
failures, skip `fdate <= hourly_split`, stop at the first
`fdate > triple_hour_split`, else append. -/
def tripleHourLoop (hourly_split triple_hour_split : Int) :
    List RawRecord → List ForecastPoint
  | [] => []
  | r :: rs =>
    match parse_forecast_hour r with
    | none => tripleHourLoop hourly_split triple_hour_split rs
    | some (fdate, three_hour) =>
      if fdate ≤ hourly_split then tripleHourLoop hourly_split triple_hour_split rs
      else if triple_hour_split < fdate then []
      else three_hour :: tripleHourLoop hourly_split triple_hour_split rs

/-- Loop over the daily (`day`) source (lines 260-272): skip parse failures,
skip `fdate <= triple_hour_split`, append the rest (no upper bound). -/
def dayLoop (triple_hour_split : Int) : List RawRecord → List ForecastPoint
  | [] => []
  | r :: rs =>
    match parse_forecast_day r with
    | none => dayLoop triple_hour_split rs
    | some (fdate, day) =>
      if fdate ≤ triple_hour_split then dayLoop triple_hour_split rs
      else day :: dayLoop triple_hour_split rs

/-- `datetime.now().replace(minute=0, second=0, microsecond=0)` (line 215):
truncation of an instant to the top of its hour. -/
def truncToHour (t : Int) : Int := Int.fdiv t 3600 * 3600

/-- `hourly_split = now + timedelta(hours=12)` (line 222). -/
def hourly_split (now : Int) : Int := now + 12 * 3600

/-- `triple_hour_split = (now + timedelta(days=2)).replace(hour=0)`
(line 241): since `now` is hour-truncated, setting the hour to 0 is
truncation to midnight of the day two days ahead. -/
def triple_hour_split (now : Int) : Int := Int.fdiv (now + 2 * 86400) 86400 * 86400

/-- The merge of `SRFWeather.__update` (lines 214-272): the `forecast` list
as built from the three sources, for an hour-truncated `now`. -/
def mergeForecast (now : Int) (mins60 hour day : List RawRecord) :
    List ForecastPoint :=
  hourlyLoop now (hourly_split now) mins60
    ++ tripleHourLoop (hourly_split now) (triple_hour_split now) hour
    ++ dayLoop (triple_hour_split now) day

/-! ### Entity update cycle (weather.py lines 131-300) -/

/-- The four keys `__update` writes into `self._state_attrs` (lines 286-291);
all start absent (`self._state_attrs = {}`, line 145). -/
structure StateAttrs where
  wind_direction : Option Int
  symbol_id : Option Int
  precipitation : Option ℚ
  precipitation_probability : Option ℚ
  deriving DecidableEq, Repr

/-- The published state of an `SRFWeather` entity (fields set in `__init__`,
lines 138-145, and mutated by `__update`). -/
structure EntityState where
  _forecast : List ForecastPoint
  _state : Option String
  _temperature : Option ℚ
  _wind_speed : Option ℚ
  _wind_bearing : Option String
  _state_attrs : StateAttrs
  deriving DecidableEq, Repr

/-- Cycle-level failures of `__update`.  `credError`/`keyErrorApiKey` arise
inside `_get`'s call to `get_api_key`; `httpError` is `raise_for_status` on a
non-OK response; `indexErrorPop` is the `IndexError` of `forecast.pop(0)` on
an empty merge (the spec's `NoForecastDataAvailable`); `keyErrorWindBearing`
is the `KeyError` of `forecastnow["wind_bearing"]` when the current record
came without `DD_DEG`. -/
inductive UpdateError where
  | credError (e : ApiKeyError)
  | httpError
  | indexErrorPop
  | keyErrorWindBearing
  deriving DecidableEq, Repr

/-- The server side of one refresh cycle, as `__update` observes it at line
210: either `_get` raised (auth failure from the token cache, or transport
failure), or it returned the three forecast arrays of the JSON body. -/
inductive FetchResult where
  | failure (e : UpdateError)
  | ok (mins60 hour day : List RawRecord)
  deriving DecidableEq, Repr

/-- `SRFWeather.__update` (lines 207-291), after abstracting the network:
`fetch` is what `_get` produced, `now` the wall-clock instant (truncated to
the hour at line 215).  Mutations of `self` happen in source order, so the
error case carries the entity state as already mutated when the exception
left the method. -/
def SRFWeather_update (st : EntityState) (fetch : FetchResult) (rawNow : Int) :
    Except (UpdateError × EntityState) EntityState :=
  match fetch with
  | FetchResult.failure e => Except.error (e, st)
  | FetchResult.ok mins60 hour day =>
    let now := truncToHour rawNow
    let forecast := mergeForecast now mins60 hour day
    -- line 274: `self._forecast = forecast` happens before the pop
    let st1 := { st with _forecast := forecast }
    match forecast with
    | [] => Except.error (UpdateError.indexErrorPop, st1)
    | forecastnow :: rest =>
      -- line 277: `forecast.pop(0)` mutates the list `self._forecast` aliases
      let st2 := { st1 with _forecast := rest }
      let st3 := { st2 with _state := some forecastnow.condition }
      let st4 := { st3 with _temperature := some forecastnow.temperature }
      let st5 := { st4 with _wind_speed := some forecastnow.wind_speed }
      match forecastnow.wind_bearing with
      | none => Except.error (UpdateError.keyErrorWindBearing, st5)
      | some wb =>
        let st6 := { st5 with _wind_bearing := some (deg_to_cardinal (wb : ℚ)) }
        Except.ok { st6 with _state_attrs :=
          { wind_direction := some wb
            symbol_id := some forecastnow.symbol_id
            precipitation := some forecastnow.precipitation
            precipitation_probability := some forecastnow.precipitation_probability } }

/-- `SRFWeather.async_update` (lines 293-300): run `__update`; any exception
other than cancellation is logged and swallowed, the entity keeping whatever
state `__update` left behind. -/
def async_update (st : EntityState) (fetch : FetchResult) (rawNow : Int) :
    EntityState :=
  match SRFWeather_update st fetch rawNow with
  | Except.ok st2 => st2
  | Except.error (_, st2) => st2

/-! ## Claims about the token cache -/

/-- C6: `get_api_key` renews exactly when the store holds no recorded expiry
or the current time is at or past the recorded expiry (boundary inclusive);
otherwise it returns the cached token and leaves the store unchanged. -/
theorem get_api_key_renew_iff (now : Int) (data : CredStore) (resp : TokenResponse) :
    (renewDecision now data = true ↔
      data.expires_at = none ∨ ∃ e, data.expires_at = some e ∧ e ≤ now) ∧
    (renewDecision now data = false → ∀ k, data.api_key = some k →
      get_api_key now resp data = Except.ok (k, data)) := by
  constructor
  · unfold renewDecision
    cases h : data.expires_at with
    | none => simp
    | some e => simp
  · intro hfalse k hk
    unfold get_api_key
    rw [hfalse]
    simp [hk]

/-- Witness for C6: with expiry 10 still in the future at time 5, the cached
token is returned and the store is untouched. -/
theorem get_api_key_renew_iff_witness :
    get_api_key 5 ⟨none, none, none⟩ ⟨some 10, some "tok"⟩ =
      Except.ok ("tok", ⟨some 10, some "tok"⟩) :=
  (get_api_key_renew_iff 5 ⟨some 10, some "tok"⟩ ⟨none, none, none⟩).2
    (by decide) "tok" rfl

/-- C10: a store with a future expiry but no stored token does not renew and
fails with the `KeyError` of `data[ATTR_API_KEY]`, the store unchanged. -/
theorem get_api_key_no_token_keyError (now e : Int) (resp : TokenResponse)
    (h : now < e) :
    get_api_key now resp ⟨some e, none⟩ =
      Except.error (ApiKeyError.keyError, ⟨some e, none⟩) := by
  unfold get_api_key renewDecision
  simp [not_le.mpr h]

/-- Witness for C10 at time 0 with expiry 1. -/
theorem get_api_key_no_token_keyError_witness :
    get_api_key 0 ⟨none, none, none⟩ ⟨some 1, none⟩ =
      Except.error (ApiKeyError.keyError, ⟨some 1, none⟩) :=
  get_api_key_no_token_keyError 0 1 ⟨none, none, none⟩ (by decide)

/-- C5: a token-exchange response missing `access_token` or `expires_in`
makes `_renew_api_key` fail with the malformed-credential-response error, the
credential store exactly as before the attempt. -/
theorem renew_api_key_malformed (now : Int) (resp : TokenResponse)
    (data : CredStore)
    (h : resp.access_token = none ∨ resp.expires_in = none) :
    _renew_api_key now resp data =
      Except.error (ApiKeyError.malformedCredentialResponse, data) := by
  unfold _renew_api_key _check_client_credentials_response
  rcases h with h | h <;> cases hi : resp.issued_at <;> simp [h]

/-- Witness for C5: response with `expires_in` only. -/
theorem renew_api_key_malformed_witness :
    _renew_api_key 7 ⟨some 1, some 3600, none⟩ ⟨some 99, some "old"⟩ =
      Except.error (ApiKeyError.malformedCredentialResponse, ⟨some 99, some "old"⟩) :=
  renew_api_key_malformed 7 ⟨some 1, some 3600, none⟩ ⟨some 99, some "old"⟩
    (Or.inl rfl)

/-- C2 (failing input): when `issued_at` is absent and synthesized as the
current time **in seconds** (1700000000), the code still divides it by 1000,
storing `expires_in + 1700000000 // 1000 = 1703600` — not
`1700000000 + 3600` as the claim requires for the synthesized path. -/
theorem renew_api_key_synthesized_divided :
    _renew_api_key 1700000000 ⟨none, some 3600, some "tok"⟩ ⟨none, none⟩ =
      Except.ok ⟨some 1703600, some "tok"⟩ ∧
    (1703600 : Int) ≠ 1700000000 + 3600 := by
  constructor
  · rfl
  · decide

/-! ## Claims about the update cycle -/

/-- C4: with all three forecast arrays empty the merged list is empty and
`__update` fails at `forecast.pop(0)` — the `NoForecastDataAvailable` of the
spec — after having already written the empty list into `self._forecast`. -/
theorem update_empty_arrays_fails (st : EntityState) (rawNow : Int) :
    mergeForecast (truncToHour rawNow) [] [] [] = [] ∧
    SRFWeather_update st (FetchResult.ok [] [] []) rawNow =
      Except.error (UpdateError.indexErrorPop, { st with _forecast := [] }) := by
  exact ⟨rfl, rfl⟩

/-- Concrete prior entity state used to exhibit the partial-update
counterexample for C3. -/
def priorState : EntityState where
  _forecast := [{ datetime := 3600, condition := "sunny", symbol_id := 1,
                  precipitation := 0, wind_speed := 5,
                  precipitation_probability := 10, wind_bearing := some 90,
                  temperature := 20, templow := none }]
  _state := some "sunny"
  _temperature := some 20
  _wind_speed := some 5
  _wind_bearing := some "E"
  _state_attrs := ⟨some 90, some 1, some 0, some 10⟩

/-- C3 fails as stated: a cycle that ends in the empty-merge-result error
does **not** retain the previously published state — `self._forecast` was
already reassigned (line 274) before `pop(0)` raised, so the entity now
publishes an empty forecast list. -/
theorem async_update_empty_not_retained :
    async_update priorState (FetchResult.ok [] [] []) 0 ≠ priorState := by
  decide

/-- C3 amended: an auth or transport failure (raised inside `_get`, before
any mutation of `self`) retains the previously published state unchanged; an
empty merge result aborts the cycle but has already replaced the published
forecast list with the empty merged list, all other fields retained. -/
theorem async_update_cycle_errors (st : EntityState) (rawNow : Int) :
    (∀ e : UpdateError, async_update st (FetchResult.failure e) rawNow = st) ∧
    (∀ mins60 hour day : List RawRecord,
      mergeForecast (truncToHour rawNow) mins60 hour day = [] →
      async_update st (FetchResult.ok mins60 hour day) rawNow =
        { st with _forecast := [] }) := by
  constructor
  · intro e
    rfl
  · intro mins60 hour day h
    unfold async_update SRFWeather_update
    simp only [h]

/-- Witness for C3's amended statement: transport failure at `priorState`,
and the empty-input cycle emptying only the forecast list. -/
theorem async_update_cycle_errors_witness :
    async_update priorState (FetchResult.failure UpdateError.httpError) 0 =
        priorState ∧
    async_update priorState (FetchResult.ok [] [] []) 0 =
        { priorState with _forecast := [] } :=
  ⟨(async_update_cycle_errors priorState 0).1 UpdateError.httpError,
   (async_update_cycle_errors priorState 0).2 [] [] [] rfl⟩

/-! ## Claims about the condition mapper and the bearing converter -/

/-- C8: symbol 1 maps to the sunny category and -1 to clear-night; every id
present in the table has its negated counterpart present, both resolving to a
defined (non-`unavailable`) category; and every absent id yields
`STATE_UNAVAILABLE` without raising. -/
theorem get_condition_from_symbol_spec :
    get_condition_from_symbol 1 = "sunny" ∧
    get_condition_from_symbol (-1) = "clear-night" ∧
    (∀ k : Int, (SYMBOL_STATE_MAP.lookup k).isSome = true →
      (SYMBOL_STATE_MAP.lookup (-k)).isSome = true ∧
      get_condition_from_symbol k ≠ STATE_UNAVAILABLE ∧
      get_condition_from_symbol (-k) ≠ STATE_UNAVAILABLE) ∧
    (∀ k : Int, SYMBOL_STATE_MAP.lookup k = none →
      get_condition_from_symbol k = STATE_UNAVAILABLE) := by
  refine ⟨rfl, rfl, ?_, ?_⟩
  · intro k h
    obtain ⟨p, hp, hk⟩ := List.lookup_isSome_iff.mp h
    have hk2 : k = p.1 := by simpa using hk
    have hb : ∀ q ∈ SYMBOL_STATE_MAP, -30 ≤ q.1 ∧ q.1 ≤ 30 := by decide
    obtain ⟨hb1, hb2⟩ := hb p hp
    rw [← hk2] at hb1 hb2
    interval_cases k <;> revert h <;> decide
  · intro k h
    unfold get_condition_from_symbol
    rw [h]
    rfl

/-- Witness for C8's two quantified parts, at ids 5 and 99. -/
theorem get_condition_from_symbol_spec_witness :
    ((SYMBOL_STATE_MAP.lookup (-(5 : Int))).isSome = true ∧
      get_condition_from_symbol 5 ≠ STATE_UNAVAILABLE ∧
      get_condition_from_symbol (-5) ≠ STATE_UNAVAILABLE) ∧
    get_condition_from_symbol 99 = STATE_UNAVAILABLE :=
  ⟨get_condition_from_symbol_spec.2.2.1 5 (by decide),
   get_condition_from_symbol_spec.2.2.2 99 (by decide)⟩

/-- Indexing the 16-entry cardinal table at any index below 16 yields one of
its labels. -/
theorem cardinals_getD_mem : ∀ n : Nat, n < 16 → CARDINALS.getD n "N" ∈ CARDINALS := by
  decide

/-- Python real `%` by 360 is invariant under adding a full turn. -/
theorem pymod_period (deg : ℚ) : pymod (deg + 360) 360 = pymod deg 360 := by
  unfold pymod
  have h : (deg + 360) / 360 = deg / 360 + 1 := by ring
  rw [h, Int.floor_add_one]
  push_cast
  ring

/-- C9: `deg_to_cardinal` is total on every (exact) real-valued input, always
producing one of the 16 cardinal labels, and is periodic:
`deg_to_cardinal (deg + 360) = deg_to_cardinal deg`. -/
theorem deg_to_cardinal_total_periodic (deg : ℚ) :
    deg_to_cardinal deg ∈ CARDINALS ∧
    deg_to_cardinal (deg + 360) = deg_to_cardinal deg := by
  constructor
  · unfold deg_to_cardinal
    apply cardinals_getD_mem
    have h0 : (0 : Int) ≤
        pyround (pymod deg DEG_FULL_CIRCLE / _CARDINAL_DEGREE) % 16 :=
      Int.emod_nonneg _ (by decide)
    have h1 : pyround (pymod deg DEG_FULL_CIRCLE / _CARDINAL_DEGREE) % 16 < 16 :=
      Int.emod_lt_of_pos _ (by decide)
    omega
  · unfold deg_to_cardinal
    have e : pymod (deg + 360) DEG_FULL_CIRCLE = pymod deg DEG_FULL_CIRCLE := by
      have h360 : DEG_FULL_CIRCLE = 360 := by
        norm_num [DEG_FULL_CIRCLE, DEG_HALF_CIRCLE]
      rw [h360]
      exact pymod_period deg
    rw [e]

/-! ## Claims about the merge engine -/

/-- Timestamp of a raw record, defaulting to 0 when the field is absent (only
ever used for records whose timestamp parses). -/
def tsd (r : RawRecord) : Int := r.local_date_time.getD 0

/-- A successful `parse_forecast` returns the parsed timestamp as the key and
stores it in the point's `datetime` field. -/
theorem parse_forecast_eq {r : RawRecord} {d : Int} {p : ForecastPoint}
    (h : parse_forecast r = some (d, p)) :
    r.local_date_time = some d ∧ p.datetime = d := by
  unfold parse_forecast at h
  split at h
  · rename_i date sym pt ws prob hl hs hr hf hp
    simp only [Option.some.injEq, Prod.mk.injEq] at h
    obtain ⟨h1, h2⟩ := h
    subst h1
    subst h2
    exact ⟨hl, rfl⟩
  · simp at h

/-- Same packaging for the hourly wrapper. -/
theorem parse_forecast_hour_eq {r : RawRecord} {d : Int} {p : ForecastPoint}
    (h : parse_forecast_hour r = some (d, p)) :
    r.local_date_time = some d ∧ p.datetime = d := by
  unfold parse_forecast_hour at h
  split at h
  · rename_i date data temp hpf htt
    simp only [Option.some.injEq, Prod.mk.injEq] at h
    obtain ⟨h1, h2⟩ := h
    subst h1
    subst h2
    obtain ⟨hl, hd⟩ := parse_forecast_eq hpf
    exact ⟨hl, hd⟩
  · simp at h

/-- Same packaging for the daily wrapper. -/
theorem parse_forecast_day_eq {r : RawRecord} {d : Int} {p : ForecastPoint}
    (h : parse_forecast_day r = some (d, p)) :
    r.local_date_time = some d ∧ p.datetime = d := by
  unfold parse_forecast_day at h
  split at h
  · rename_i date data thigh tlow hpf htx htn
    simp only [Option.some.injEq, Prod.mk.injEq] at h
    obtain ⟨h1, h2⟩ := h
    subst h1
    subst h2
    obtain ⟨hl, hd⟩ := parse_forecast_eq hpf
    exact ⟨hl, hd⟩
  · simp at h

/-- A successful parse pins down `tsd`. -/
theorem tsd_of_parse {f : RawRecord → Option (Int × ForecastPoint)}
    (hf : ∀ {r d p}, f r = some (d, p) → r.local_date_time = some d)
    {r : RawRecord} {d : Int} {p : ForecastPoint} (h : f r = some (d, p)) :
    tsd r = d := by
  unfold tsd
  rw [hf h]
  rfl

/-- Records past a stop bound contribute nothing to a window that ends at the
bound: justifies `break` = discard-the-rest on ascending input. -/
theorem filter_filterMap_eq_nil {f : RawRecord → Option (Int × ForecastPoint)}
    (hf : ∀ {r d p}, f r = some (d, p) → r.local_date_time = some d)
    {l : List RawRecord} {w : Int × ForecastPoint → Bool} {c : Int}
    (hgt : ∀ r2 ∈ l, c < tsd r2)
    (hw : ∀ q : Int × ForecastPoint, c < q.1 → w q = false) :
    (l.filterMap f).filter w = [] := by
  rw [List.filter_eq_nil_iff]
  intro q hq
  obtain ⟨r2, hr2, hfr2⟩ := List.mem_filterMap.mp hq
  obtain ⟨d2, p2⟩ := q
  have ht : tsd r2 = d2 := tsd_of_parse hf hfr2
  have hc : c < d2 := ht ▸ hgt r2 hr2
  simp [hw (d2, p2) hc]

/-- The hourly loop on a timestamp-ascending source equals filtering the
parseable records to the window `now ≤ t ≤ hourly_split`. -/
theorem hourlyLoop_eq (now cut : Int) (l : List RawRecord)
    (hs : l.Pairwise fun a b => tsd a < tsd b) :
    hourlyLoop now cut l =
      ((l.filterMap parse_forecast_hour).filter
        fun q => decide (now ≤ q.1 ∧ q.1 ≤ cut)).map Prod.snd := by
  induction l with
  | nil => rfl
  | cons r rs ih =>
    rw [List.pairwise_cons] at hs
    obtain ⟨hr, hrs⟩ := hs
    cases hp : parse_forecast_hour r with
    | none =>
      simp only [hourlyLoop, hp, List.filterMap_cons_none hp]
      exact ih hrs
    | some q =>
      obtain ⟨d, p⟩ := q
      have htsd : tsd r = d :=
        tsd_of_parse (fun h => (parse_forecast_hour_eq h).1) hp
      rw [List.filterMap_cons_some hp]
      by_cases h1 : d < now
      · have hw : (decide (now ≤ d ∧ d ≤ cut)) = false := by
          simp [not_le.mpr h1]
        simp only [hourlyLoop, hp, if_pos h1, List.filter_cons, hw,
          Bool.false_eq_true, if_false]
        exact ih hrs
      · by_cases h2 : cut < d
        · have hw : (decide (now ≤ d ∧ d ≤ cut)) = false := by
            simp [not_le.mpr h2]
          have hrest :
              ((rs.filterMap parse_forecast_hour).filter
                fun q => decide (now ≤ q.1 ∧ q.1 ≤ cut)) = [] := by
            apply filter_filterMap_eq_nil
              (fun h => (parse_forecast_hour_eq h).1) (c := cut)
            · intro r2 hr2
              exact lt_trans h2 (htsd ▸ hr r2 hr2)
            · intro q hq
              simp [not_le.mpr hq]
          simp only [hourlyLoop, hp, if_neg h1, if_pos h2, List.filter_cons,
            hw, Bool.false_eq_true, if_false, hrest, List.map_nil]
        · have hw : (decide (now ≤ d ∧ d ≤ cut)) = true := by
            simp [not_lt.mp h1, not_lt.mp h2]
          simp only [hourlyLoop, hp, if_neg h1, if_neg h2, List.filter_cons,
            hw, if_true, List.map_cons]
          exact congrArg (p :: ·) (ih hrs)

/-- The tri-hourly loop on a timestamp-ascending source equals filtering the
parseable records to the window `hourly_split < t ≤ triple_hour_split`. -/
theorem tripleHourLoop_eq (lo hi : Int) (l : List RawRecord)
    (hs : l.Pairwise fun a b => tsd a < tsd b) :
    tripleHourLoop lo hi l =
      ((l.filterMap parse_forecast_hour).filter
        fun q => decide (lo < q.1 ∧ q.1 ≤ hi)).map Prod.snd := by
  induction l with
  | nil => rfl
  | cons r rs ih =>
    rw [List.pairwise_cons] at hs
    obtain ⟨hr, hrs⟩ := hs
    cases hp : parse_forecast_hour r with
    | none =>
      simp only [tripleHourLoop, hp, List.filterMap_cons_none hp]
      exact ih hrs
    | some q =>
      obtain ⟨d, p⟩ := q
      have htsd : tsd r = d :=
        tsd_of_parse (fun h => (parse_forecast_hour_eq h).1) hp
      rw [List.filterMap_cons_some hp]
      by_cases h1 : d ≤ lo
      · have hw : (decide (lo < d ∧ d ≤ hi)) = false := by
          simp [not_lt.mpr h1]
        simp only [tripleHourLoop, hp, if_pos h1, List.filter_cons, hw,
          Bool.false_eq_true, if_false]
        exact ih hrs
      · by_cases h2 : hi < d
        · have hw : (decide (lo < d ∧ d ≤ hi)) = false := by
            simp [not_le.mpr h2]
          have hrest :
              ((rs.filterMap parse_forecast_hour).filter
                fun q => decide (lo < q.1 ∧ q.1 ≤ hi)) = [] := by
            apply filter_filterMap_eq_nil
              (fun h => (parse_forecast_hour_eq h).1) (c := hi)
            · intro r2 hr2
              exact lt_trans h2 (htsd ▸ hr r2 hr2)
            · intro q hq
              simp [not_le.mpr hq]
          simp only [tripleHourLoop, hp, if_neg h1, if_pos h2,
            List.filter_cons, hw, Bool.false_eq_true, if_false, hrest,
            List.map_nil]
        · have hw : (decide (lo < d ∧ d ≤ hi)) = true := by
            simp [not_le.mp h1, not_lt.mp h2]
          simp only [tripleHourLoop, hp, if_neg h1, if_neg h2,
            List.filter_cons, hw, if_true, List.map_cons]
          exact congrArg (p :: ·) (ih hrs)

/-- The daily loop equals filtering the parseable records to `t > cutoff`;
no ordering assumption needed since it has no stop condition. -/
theorem dayLoop_eq (lo : Int) (l : List RawRecord) :
    dayLoop lo l =
      ((l.filterMap parse_forecast_day).filter
        fun q => decide (lo < q.1)).map Prod.snd := by
  induction l with
  | nil => rfl
  | cons r rs ih =>
    cases hp : parse_forecast_day r with
    | none =>
      simp only [dayLoop, hp, List.filterMap_cons_none hp]
      exact ih
    | some q =>
      obtain ⟨d, p⟩ := q
      rw [List.filterMap_cons_some hp]
      by_cases h1 : d ≤ lo
      · have hw : (decide (lo < d)) = false := by simp [not_lt.mpr h1]
        simp only [dayLoop, hp, if_pos h1, List.filter_cons, hw,
          Bool.false_eq_true, if_false]
        exact ih
      · have hw : (decide (lo < d)) = true := by simp [not_le.mp h1]
        simp only [dayLoop, hp, if_neg h1, List.filter_cons, hw, if_true,
          List.map_cons]
        exact congrArg (p :: ·) ih

/-- The hourly cutoff always precedes the daily cutoff: midnight two days
ahead is at least `now + 86401`, in particular past `now + 12h`. -/
theorem hourly_split_lt_triple_hour_split (now : Int) :
    hourly_split now < triple_hour_split now := by
  unfold hourly_split triple_hour_split
  rw [Int.fdiv_eq_ediv _ (by norm_num)]
  omega

/-- Membership in a window part pins the point's datetime to the window
predicate. -/
theorem mem_window {f : RawRecord → Option (Int × ForecastPoint)}
    (hf : ∀ {r d p}, f r = some (d, p) → p.datetime = d)
    {w : Int × ForecastPoint → Bool} {l : List RawRecord} {x : ForecastPoint}
    (hx : x ∈ ((l.filterMap f).filter w).map Prod.snd) :
    w (x.datetime, x) = true := by
  obtain ⟨q, hq, hqx⟩ := List.mem_map.mp hx
  obtain ⟨hq1, hq2⟩ := List.mem_filter.mp hq
  obtain ⟨r, hr, hfr⟩ := List.mem_filterMap.mp hq1
  obtain ⟨d2, p2⟩ := q
  have hd : p2.datetime = d2 := hf hfr
  rw [← hqx]
  show w (p2.datetime, p2) = true
  rw [hd]
  exact hq2

/-- Each window part is chronologically ascending when its source array is
timestamp-ascending. -/
theorem pairwise_window {f : RawRecord → Option (Int × ForecastPoint)}
    (hf : ∀ {r d p}, f r = some (d, p) →
      r.local_date_time = some d ∧ p.datetime = d)
    {l : List RawRecord} (hs : l.Pairwise fun a b => tsd a < tsd b)
    (w : Int × ForecastPoint → Bool) :
    (((l.filterMap f).filter w).map Prod.snd).Pairwise
      fun p q => p.datetime < q.datetime := by
  apply List.pairwise_map.mpr
  apply List.Pairwise.filter
  apply List.Pairwise.filterMap f ?_ hs
  intro a a' hlt b hb b' hb'
  obtain ⟨d, p⟩ := b
  obtain ⟨d', p'⟩ := b'
  have h1 := hf (Option.mem_def.mp hb)
  have h2 := hf (Option.mem_def.mp hb')
  have ha : tsd a = d := by
    unfold tsd
    rw [h1.1]
    rfl
  have ha' : tsd a' = d' := by
    unfold tsd
    rw [h2.1]
    rfl
  show p.datetime < p'.datetime
  rw [h1.2, h2.2, ← ha, ← ha']
  exact hlt

/-- C1: for an hour-truncated instant `now` and three timestamp-ascending
arrays of parseable records, the merged sequence is exactly the hourly
records with `now ≤ t ≤ now+12h`, then the tri-hourly records with
`now+12h < t ≤ midnight(now+48h)`, then the daily records beyond that
cutoff — and this concatenation is chronologically ascending. -/
theorem mergeForecast_windows (now : Int) (A B C : List RawRecord)
    (hA : ∀ r ∈ A, (parse_forecast_hour r).isSome = true)
    (hB : ∀ r ∈ B, (parse_forecast_hour r).isSome = true)
    (hC : ∀ r ∈ C, (parse_forecast_day r).isSome = true)
    (sA : A.Pairwise fun a b => tsd a < tsd b)
    (sB : B.Pairwise fun a b => tsd a < tsd b)
    (sC : C.Pairwise fun a b => tsd a < tsd b) :
    mergeForecast now A B C =
      ((A.filterMap parse_forecast_hour).filter
        fun q => decide (now ≤ q.1 ∧ q.1 ≤ hourly_split now)).map Prod.snd
      ++ ((B.filterMap parse_forecast_hour).filter
        fun q => decide (hourly_split now < q.1 ∧
          q.1 ≤ triple_hour_split now)).map Prod.snd
      ++ ((C.filterMap parse_forecast_day).filter
        fun q => decide (triple_hour_split now < q.1)).map Prod.snd ∧
    (mergeForecast now A B C).Pairwise
      fun p q => p.datetime < q.datetime := by
  have hEq : mergeForecast now A B C =
      ((A.filterMap parse_forecast_hour).filter
        fun q => decide (now ≤ q.1 ∧ q.1 ≤ hourly_split now)).map Prod.snd
      ++ ((B.filterMap parse_forecast_hour).filter
        fun q => decide (hourly_split now < q.1 ∧
          q.1 ≤ triple_hour_split now)).map Prod.snd
      ++ ((C.filterMap parse_forecast_day).filter
        fun q => decide (triple_hour_split now < q.1)).map Prod.snd := by
    unfold mergeForecast
    rw [hourlyLoop_eq _ _ _ sA, tripleHourLoop_eq _ _ _ sB, dayLoop_eq]
  refine ⟨hEq, ?_⟩
  rw [hEq]
  have m1 : ∀ x ∈ ((A.filterMap parse_forecast_hour).filter
      fun q => decide (now ≤ q.1 ∧ q.1 ≤ hourly_split now)).map Prod.snd,
      now ≤ x.datetime ∧ x.datetime ≤ hourly_split now := by
    intro x hx
    exact of_decide_eq_true
      (mem_window (fun h => (parse_forecast_hour_eq h).2) hx)
  have m2 : ∀ x ∈ ((B.filterMap parse_forecast_hour).filter
      fun q => decide (hourly_split now < q.1 ∧
        q.1 ≤ triple_hour_split now)).map Prod.snd,
      hourly_split now < x.datetime ∧ x.datetime ≤ triple_hour_split now := by
    intro x hx
    exact of_decide_eq_true
      (mem_window (fun h => (parse_forecast_hour_eq h).2) hx)
  have m3 : ∀ x ∈ ((C.filterMap parse_forecast_day).filter
      fun q => decide (triple_hour_split now < q.1)).map Prod.snd,
      triple_hour_split now < x.datetime := by
    intro x hx
    exact of_decide_eq_true
      (mem_window (fun h => (parse_forecast_day_eq h).2) hx)
  have pw1 := pairwise_window (fun h => parse_forecast_hour_eq h) sA
    (fun q => decide (now ≤ q.1 ∧ q.1 ≤ hourly_split now))
  have pw2 := pairwise_window (fun h => parse_forecast_hour_eq h) sB
    (fun q => decide (hourly_split now < q.1 ∧ q.1 ≤ triple_hour_split now))
  have pw3 := pairwise_window (fun h => parse_forecast_day_eq h) sC
    (fun q => decide (triple_hour_split now < q.1))
  rw [List.append_assoc]
  apply List.pairwise_append.mpr
  refine ⟨pw1, List.pairwise_append.mpr ⟨pw2, pw3, ?_⟩, ?_⟩
  · intro a ha b hb
    exact lt_of_le_of_lt (m2 a ha).2 (m3 b hb)
  · intro a ha b hb
    rcases List.mem_append.mp hb with hb2 | hb3
    · exact lt_of_le_of_lt (m1 a ha).2 (m2 b hb2).1
    · exact lt_of_le_of_lt (m1 a ha).2
        (lt_trans (hourly_split_lt_triple_hour_split now) (m3 b hb3))

/-- Concrete parseable hourly record at timestamp 0. -/
def wrecA : RawRecord :=
  { local_date_time := some 0, SYMBOL_CODE := some 1, RRR_MM := some 0,
    FF_KMH := some 3, PROBPCP_PERCENT := some 10, DD_DEG := some 90,
    TTT_C := some 15, TX_C := none, TN_C := none }

/-- Concrete parseable tri-hourly record at timestamp 50000
(inside `(12h, midnight of day 2]` for `now = 0`). -/
def wrecB : RawRecord :=
  { local_date_time := some 50000, SYMBOL_CODE := some 19, RRR_MM := some 1,
    FF_KMH := some 7, PROBPCP_PERCENT := some 40, DD_DEG := none,
    TTT_C := some 12, TX_C := none, TN_C := none }

/-- Concrete parseable daily record at timestamp 200000
(past the daily cutoff 172800 for `now = 0`). -/
def wrecC : RawRecord :=
  { local_date_time := some 200000, SYMBOL_CODE := some 4, RRR_MM := some 2,
    FF_KMH := some 11, PROBPCP_PERCENT := some 80, DD_DEG := some 180,
    TTT_C := none, TX_C := some 18, TN_C := some 9 }

/-- Witness for C1 at `now = 0` with one record per source. -/
theorem mergeForecast_windows_witness :
    (∀ r ∈ [wrecA], (parse_forecast_hour r).isSome = true) ∧
    (∀ r ∈ [wrecC], (parse_forecast_day r).isSome = true) ∧
    ([wrecA].Pairwise fun a b => tsd a < tsd b) ∧
    (mergeForecast 0 [wrecA] [wrecB] [wrecC] =
      (([wrecA].filterMap parse_forecast_hour).filter
        fun q => decide (0 ≤ q.1 ∧ q.1 ≤ hourly_split 0)).map Prod.snd
      ++ (([wrecB].filterMap parse_forecast_hour).filter
        fun q => decide (hourly_split 0 < q.1 ∧
          q.1 ≤ triple_hour_split 0)).map Prod.snd
      ++ (([wrecC].filterMap parse_forecast_day).filter
        fun q => decide (triple_hour_split 0 < q.1)).map Prod.snd ∧
      (mergeForecast 0 [wrecA] [wrecB] [wrecC]).Pairwise
        fun p q => p.datetime < q.datetime) :=
  ⟨by decide, by decide, by decide,
   mergeForecast_windows 0 [wrecA] [wrecB] [wrecC] (by decide) (by decide)
     (by decide) (by decide) (by decide) (by decide)⟩

/-- Removing one unparseable record leaves the hourly loop unchanged. -/
theorem hourlyLoop_skip (now cut : Int) {bad : RawRecord}
    (h : parse_forecast_hour bad = none) (pre post : List RawRecord) :
    hourlyLoop now cut (pre ++ bad :: post) =
      hourlyLoop now cut (pre ++ post) := by
  induction pre with
  | nil => simp only [List.nil_append, hourlyLoop, h]
  | cons r rs ih =>
    simp only [List.cons_append, hourlyLoop]
    cases hp : parse_forecast_hour r with
    | none =>
      simp only [hp]
      exact ih
    | some q =>
      obtain ⟨d, p⟩ := q
      simp only [hp]
      by_cases h1 : d < now
      · simp only [if_pos h1]
        exact ih
      · by_cases h2 : cut < d
        · simp only [if_neg h1, if_pos h2]
        · simp only [if_neg h1, if_neg h2]
          exact congrArg (p :: ·) ih

/-- Removing one unparseable record leaves the tri-hourly loop unchanged. -/
theorem tripleHourLoop_skip (lo hi : Int) {bad : RawRecord}
    (h : parse_forecast_hour bad = none) (pre post : List RawRecord) :
    tripleHourLoop lo hi (pre ++ bad :: post) =
      tripleHourLoop lo hi (pre ++ post) := by
  induction pre with
  | nil => simp only [List.nil_append, tripleHourLoop, h]
  | cons r rs ih =>
    simp only [List.cons_append, tripleHourLoop]
    cases hp : parse_forecast_hour r with
    | none =>
      simp only [hp]
      exact ih
    | some q =>
      obtain ⟨d, p⟩ := q
      simp only [hp]
      by_cases h1 : d ≤ lo
      · simp only [if_pos h1]
        exact ih
      · by_cases h2 : hi < d
        · simp only [if_neg h1, if_pos h2]
        · simp only [if_neg h1, if_neg h2]
          exact congrArg (p :: ·) ih

/-- Removing one unparseable record leaves the daily loop unchanged. -/
theorem dayLoop_skip (lo : Int) {bad : RawRecord}
    (h : parse_forecast_day bad = none) (pre post : List RawRecord) :
    dayLoop lo (pre ++ bad :: post) = dayLoop lo (pre ++ post) := by
  induction pre with
  | nil => simp only [List.nil_append, dayLoop, h]
  | cons r rs ih =>
    simp only [List.cons_append, dayLoop]
    cases hp : parse_forecast_day r with
    | none =>
      simp only [hp]
      exact ih
    | some q =>
      obtain ⟨d, p⟩ := q
      simp only [hp]
      by_cases h1 : d ≤ lo
      · simp only [if_pos h1]
        exact ih
      · simp only [if_neg h1]
        exact congrArg (p :: ·) ih

/-- C7: a merge input in which one record fails to parse (in whichever of the
three source arrays) produces exactly the output of the same input with that
record removed: the bad record is skipped, every other record is kept, and
the remaining records still meet the same cutoffs. -/
theorem mergeForecast_skips_unparseable (now : Int) (bad : RawRecord) :
    (∀ pre post B C, parse_forecast_hour bad = none →
      mergeForecast now (pre ++ bad :: post) B C =
        mergeForecast now (pre ++ post) B C) ∧
    (∀ A pre post C, parse_forecast_hour bad = none →
      mergeForecast now A (pre ++ bad :: post) C =
        mergeForecast now A (pre ++ post) C) ∧
    (∀ A B pre post, parse_forecast_day bad = none →
      mergeForecast now A B (pre ++ bad :: post) =
        mergeForecast now A B (pre ++ post)) := by
  refine ⟨?_, ?_, ?_⟩ <;> intro w x y z h <;> unfold mergeForecast
  · rw [hourlyLoop_skip _ _ h]
  · rw [tripleHourLoop_skip _ _ h]
  · rw [dayLoop_skip _ h]

/-- Hourly record whose `RRR_MM` is non-numeric, so `parse_forecast` raises:
the spec's example of a single bad record. -/
def wbad : RawRecord :=
  { local_date_time := some 3600, SYMBOL_CODE := some 1, RRR_MM := none,
    FF_KMH := some 3, PROBPCP_PERCENT := some 10, DD_DEG := none,
    TTT_C := some 15, TX_C := none, TN_C := none }

/-- Witness for C7: dropping the bad hourly record changes nothing. -/
theorem mergeForecast_skips_unparseable_witness :
    parse_forecast_hour wbad = none ∧
    mergeForecast 0 ([wrecA] ++ wbad :: []) [wrecB] [wrecC] =
      mergeForecast 0 ([wrecA] ++ []) [wrecB] [wrecC] :=
  ⟨by decide,
   (mergeForecast_skips_unparseable 0 wbad).1 [wrecA] [] [wrecB] [wrecC]
     (by decide)⟩

end SrfWeather
